import Mathlib

/-!
Verification of the grid-construction core of the mitgcm_python repository
(`grid.py`): longitude normalization, ice-shelf draft and bathymetry
derivation, land/ice/FRIS masks, and the SOSE grid trim/extend alignment.

Arrays are embedded as Lean lists of rationals (numpy float arrays become
exact rationals; the claims under study are about index bookkeeping,
ordering and exact arithmetic identities, not rounding).  Fatal errors
(`print ... ; sys.exit()`) are embedded as `Except.error`.
-/

deriving instance DecidableEq for Except

namespace MitgcmGrid

/-- Modelled from the spec: `fix_lon_range` lives in `utils.py`, which is not
part of the sources; the spec says it remaps every value into the half-open
interval `(max_lon − 360, max_lon]` by adding/subtracting 360 as needed. -/
def fixLonVal (maxLon x : ℚ) : ℚ :=
  x - 360 * ⌈(x - maxLon) / 360⌉

/-- Minimum of a list, as computed by `np.amin` (unused 0 on the empty array,
where numpy would raise). -/
def rawMin : List ℚ → ℚ
  | [] => 0
  | x :: xs => xs.foldl min x

/-- Maximum of a list, as computed by `np.amax`. -/
def rawMax : List ℚ → ℚ
  | [] => 0
  | x :: xs => xs.foldl max x

/-- The check `np.all(np.diff(a) > 0)`: every adjacent pair strictly
increases. -/
def strictlyIncreasing (l : List ℚ) : Bool :=
  l.Chain' (fun a b => decide (a < b))

/-- Longitude-range handling of `Grid.__init__` (grid.py lines 113-131) for
the 1D centre-longitude axis, with `x_is_lon = True`.  When `max_lon` is
`none` the range is auto-detected from the raw axis, the axis is normalized
once as a test, and strict monotonicity is checked (fatal error otherwise);
then — whether `max_lon` was supplied or auto-detected — `fix_lon_range` is
applied (again) to the axis. -/
def gridNormalizeLon (maxLonOpt : Option ℚ) (lon1d : List ℚ) :
    Except String (List ℚ) :=
  match maxLonOpt with
  | none =>
    let maxLon : ℚ := if rawMin lon1d < 180 ∧ rawMax lon1d > 180 then 360 else 180
    let lonTest := lon1d.map (fixLonVal maxLon)
    if strictlyIncreasing lonTest then
      Except.ok (lonTest.map (fixLonVal maxLon))
    else
      Except.error "Error (Grid): Longitude is not strictly increasing either in the range (0, 360) or (-180, 180)."
  | some maxLon =>
    Except.ok (lon1d.map (fixLonVal maxLon))

/-- Core of the ice-shelf draft loop of `Grid.__init__` (grid.py lines
138-149), for one water column.  The list holds the triples
`(z_edges[k], dz[k], hfac[k,j,i])` for `k = 0, …, nz−1`; the accumulator is
the current `draft` value at this point, `none` standing for the `NaN`
sentinel.  Each step assigns `z_edges[k] - dz[k]*(1-hfac[k])` exactly where
the cell is wet (`hfac ≠ 0`) and no draft has been assigned yet. -/
def draftColAux : List (ℚ × ℚ × ℚ) → Option ℚ → Option ℚ
  | [], acc => acc
  | t :: rest, acc =>
    draftColAux rest
      (if t.2.2 ≠ 0 ∧ acc = none then some (t.1 - t.2.1 * (1 - t.2.2)) else acc)

/-- Ice-shelf draft of one water column: run the assignment loop from the top
layer down, then replace a still-`NaN` (all-dry) column by draft `0`
(grid.py lines 147-149). -/
def draftCol (zEdges dz col : List ℚ) : ℚ :=
  (draftColAux (zEdges.zip (dz.zip col)) none).getD 0

/-- Extract the water column `hfac[:, j, i]` from a 3D array stored as a list
of horizontal layers. -/
def columnAt (hfac : List (List (List ℚ))) (j i : ℕ) : List ℚ :=
  hfac.map (fun layer => (layer.getD j []).getD i 0)

/-- Pointwise land-mask test of `Grid.build_land_mask` (grid.py line 176):
the column is land exactly when `np.sum(hfac, axis=0)` vanishes there. -/
def landPoint (col : List ℚ) : Bool :=
  decide (col.sum = 0)

/-- Pointwise ice-shelf-mask test of `Grid.build_ice_mask` (grid.py line
182): the column sum is nonzero and the top cell is not fully wet. -/
def icePoint (col : List ℚ) : Bool :=
  decide (col.sum ≠ 0) && decide (col.headD 0 < 1)

/-- Modelled from the spec: `fris_bounds` lives in `constants.py`, which is
not part of the sources.  The spec describes the FRIS region as two disjoint
bounding boxes split at 45°W, so the western bound sits at or west of −45°
and the eastern bound at or east of it; we carry the western, eastern and
southern bounds as parameters. -/
structure FrisBounds where
  west : ℚ
  east : ℚ
  south : ℚ
deriving DecidableEq

/-- Pointwise FRIS-mask test of `Grid.build_fris_mask` (grid.py lines
188-198): the mask starts all-`False` and each of the two bounding boxes
(`[fris_bounds[0], -45, fris_bounds[2], -74.7]` and
`[-45, fris_bounds[1], fris_bounds[2], -77.85]`) sets the points of the ice
mask inside it to `True`, which is a pointwise OR of the two selections. -/
def frisPoint (fb : FrisBounds) (ice : Bool) (lon lat : ℚ) : Bool :=
  (ice && decide (lon ≥ fb.west) && decide (lon ≤ -45)
       && decide (lat ≥ fb.south) && decide (lat ≤ -74.7)) ||
  (ice && decide (lon ≥ -45) && decide (lon ≤ fb.east)
       && decide (lat ≥ fb.south) && decide (lat ≤ -77.85))

/-- Raw named arrays handed to `Grid.__init__` by the external loader, in
the 1D-coordinate (xmitgcm) variant: 1D axes plus the 3D partial-cell
fractions (stored `[k][j][i]`), the 1D vertical geometry and the 2D water
column thickness. -/
structure GridRaw where
  lon_1d : List ℚ
  lat_1d : List ℚ
  z : List ℚ
  z_edges : List ℚ
  dz : List ℚ
  hfac : List (List (List ℚ))
  hfac_w : List (List (List ℚ))
  hfac_s : List (List (List ℚ))
  wct : List (List ℚ)
deriving DecidableEq

/-- The derived fields of a constructed `Grid` that the claims under study
inspect. -/
structure Grid where
  nx : ℕ
  ny : ℕ
  nz : ℕ
  lon_1d : List ℚ
  lat_1d : List ℚ
  draft : List (List ℚ)
  bathy : List (List ℚ)
  wct : List (List ℚ)
  land_mask : List (List Bool)
  land_mask_u : List (List Bool)
  land_mask_v : List (List Bool)
  ice_mask : List (List Bool)
  fris_mask : List (List Bool)
deriving DecidableEq

/-- Build a `(ny, nx)` array from a pointwise rule, as the vectorized numpy
assignments of `Grid.__init__` do. -/
def mkArr2 {α : Type} (ny nx : ℕ) (f : ℕ → ℕ → α) : List (List α) :=
  (List.range ny).map (fun j => (List.range nx).map (fun i => f j i))

/-- Construction of a `Grid` (grid.py `Grid.__init__`) from already-loaded
1D-coordinate raw arrays: normalize longitude (lines 113-131), save the
dimensions (lines 133-136), compute the ice-shelf draft by the top-to-bottom
loop (lines 138-149), derive `bathy = draft - wct` (line 152), and build the
land/ice/FRIS masks (lines 154-166).  The numpy draft loop and mask builders
act independently at each horizontal point, so they are embedded through
their per-column/pointwise cores. -/
def mkGrid (maxLonOpt : Option ℚ) (fb : FrisBounds) (raw : GridRaw) :
    Except String Grid :=
  match gridNormalizeLon maxLonOpt raw.lon_1d with
  | Except.error e => Except.error e
  | Except.ok lon =>
    let nx := lon.length
    let ny := raw.lat_1d.length
    let nz := raw.z.length
    let draft := mkArr2 ny nx
      (fun j i => draftCol raw.z_edges raw.dz (columnAt raw.hfac j i))
    let bathy := draft.zipWith (fun dr wr => dr.zipWith (fun d w => d - w) wr) raw.wct
    let iceM := mkArr2 ny nx (fun j i => icePoint (columnAt raw.hfac j i))
    Except.ok
      { nx := nx
        ny := ny
        nz := nz
        lon_1d := lon
        lat_1d := raw.lat_1d
        draft := draft
        bathy := bathy
        wct := raw.wct
        land_mask := mkArr2 ny nx (fun j i => landPoint (columnAt raw.hfac j i))
        land_mask_u := mkArr2 ny nx (fun j i => landPoint (columnAt raw.hfac_w j i))
        land_mask_v := mkArr2 ny nx (fun j i => landPoint (columnAt raw.hfac_s j i))
        ice_mask := iceM
        fris_mask := mkArr2 ny nx
          (fun j i => frisPoint fb ((iceM.getD j []).getD i false)
            (lon.getD i 0) (raw.lat_1d.getD j 0)) }

/-- Modelled from the spec: `split_longitude` lives in `utils.py`, which is
not part of the sources; the spec says the longitude axis (and every field)
is rotated — not interpolated — at the split index so indices run
contiguously ascending, i.e. the two halves of the last axis are swapped. -/
def split_longitude {α : Type} (l : List α) (i_split : ℕ) : List α :=
  l.drop i_split ++ l.take i_split

/-- The expression `np.nonzero(arr > x)[0][0]`: index of the first entry
strictly greater than `x` (`none` where numpy raises `IndexError`). -/
def firstIdxGt (l : List ℚ) (x : ℚ) : Option ℕ :=
  l.findIdx? (fun v => decide (v > x))

/-- The expression `np.nonzero(arr < x)[0][0]`: index of the first entry
strictly less than `x`. -/
def firstIdxLt (l : List ℚ) (x : ℚ) : Option ℕ :=
  l.findIdx? (fun v => decide (v < x))

/-- Southward extension count of `SOSEGrid.__init__` (grid.py line 474):
`int(np.ceil((lat_1d[0] - ymin)/sose_res))`. -/
def j0AfterExtend (lat0 ymin res : ℚ) : ℕ :=
  (⌈(lat0 - ymin) / res⌉).toNat

/-- Synthesized southward latitude values of `SOSEGrid.__init__` (grid.py
lines 516 and 519): `np.flipud(-1*(np.arange(n)+1)*res + base)`. -/
def latExtendVals (n : ℕ) (res base : ℚ) : List ℚ :=
  ((List.range n).map (fun m : ℕ => -1 * ((m : ℚ) + 1) * res + base)).reverse

/-- Python slice `a[i0:i1]` on a list. -/
def slice {α : Type} (l : List α) (i0 i1 : ℕ) : List α :=
  (l.drop i0).take (i1 - i0)

/-- The re-indexing state and resulting axes of a `SOSEGrid`. -/
structure SoseAxes where
  trim_extend : Bool
  i_split : ℕ
  i0_before : ℕ
  i1_before : ℕ
  i0_after : ℕ
  i1_after : ℕ
  j0_before : ℕ
  j1_before : ℕ
  j0_after : ℕ
  j1_after : ℕ
  k0_before : ℕ
  k1_before : ℕ
  k0_after : ℕ
  k1_after : ℕ
  nx : ℕ
  ny : ℕ
  nz : ℕ
  lon_1d : List ℚ
  lon_corners_1d : List ℚ
  lat_1d : List ℚ
  lat_corners_1d : List ℚ
  z : List ℚ
deriving DecidableEq

/-- Final bound checks of `SOSEGrid.__init__` (grid.py lines 528-546): after
the axes are trimmed/extended, verify the new corner-longitude, corner-
latitude and depth axes actually cover the six target bounds; any violation
is a fatal error. -/
def soseCheckBounds (g : SoseAxes) (xmin xmax ymin ymax z_shallow z_deep : ℚ) :
    Except String SoseAxes :=
  if g.lon_corners_1d.getD 0 0 > xmin then
    Except.error "Error (SOSEGrid): western bound not cleared"
  else if g.lon_corners_1d.getLastD 0 < xmax then
    Except.error "Error (SOSEGrid): eastern bound not cleared"
  else if g.lat_corners_1d.getD 0 0 > ymin then
    Except.error "Error (SOSEGrid): southern bound not cleared"
  else if g.lat_corners_1d.getLastD 0 < ymax then
    Except.error "Error (SOSEGrid): northern bound not cleared"
  else if g.z.getD 0 0 < z_shallow then
    Except.error "Error (SOSEGrid): shallow bound not cleared"
  else if g.z.getLastD 0 > z_deep then
    Except.error "Error (SOSEGrid): deep bound not cleared"
  else
    Except.ok g

/-- Western-bound step of `SOSEGrid.__init__` (grid.py lines 438-448):
produce `i0_before`; extending westward is a fatal error. -/
def soseWest (lon : List ℚ) (xmin : ℚ) : Except String ℕ :=
  if xmin = lon.getD 0 0 then Except.ok 0
  else if xmin > lon.getD 0 0 then
    match firstIdxGt lon xmin with
    | some idx => Except.ok (idx - 1)
    | none => Except.error "IndexError"
  else Except.error "Error (SOSEGrid): not allowed to extend westward"

/-- Eastern-bound step (grid.py lines 450-459): produce `i1_before`;
extending eastward is a fatal error. -/
def soseEast (lonc : List ℚ) (xmax : ℚ) (sose_nx : ℕ) : Except String ℕ :=
  if xmax = lonc.getLastD 0 then Except.ok sose_nx
  else if xmax < lonc.getLastD 0 then
    match firstIdxGt lonc xmax with
    | some idx => Except.ok (idx + 1)
    | none => Except.error "IndexError"
  else Except.error "Error (SOSEGrid): not allowed to extend eastward"

/-- Southern-bound step (grid.py lines 463-476): produce
`(j0_before, j0_after)`; trimming when the target minimum sits inside the
source axis, southward extension by `ceil((lat_1d[0]-ymin)/sose_res)`
synthesized rows when it sits south of it. -/
def soseSouth (lat : List ℚ) (ymin res : ℚ) : Except String (ℕ × ℕ) :=
  if ymin = lat.getD 0 0 then Except.ok (0, 0)
  else if ymin > lat.getD 0 0 then
    match firstIdxGt lat ymin with
    | some idx => Except.ok (idx - 1, 0)
    | none => Except.error "IndexError"
  else Except.ok (0, j0AfterExtend (lat.getD 0 0) ymin res)

/-- Northern-bound step (grid.py lines 478-486): produce `j1_before`;
extending northward is a fatal error. -/
def soseNorth (latc : List ℚ) (ymax : ℚ) (sose_ny : ℕ) : Except String ℕ :=
  if ymax = latc.getLastD 0 then Except.ok sose_ny
  else if ymax < latc.getLastD 0 then
    match firstIdxGt latc ymax with
    | some idx => Except.ok (idx + 1)
    | none => Except.error "IndexError"
  else Except.error "Error (SOSEGrid): not allowed to extend northward"

/-- Trim/extend stage of `SOSEGrid.__init__` with `trim_extend` enabled
(grid.py lines 411-546), starting from the already split, strictly
increasing source axes.  `lon`, `lonc`, `lat`, `latc`, `z` are the source
axes at centres/corners; `modelZ` is the target grid's depth axis; `xmin`,
`xmax`, `ymin`, `ymax` are `np.amin`/`np.amax` of the target grid's
longitude/latitude arrays; `res` is the native SOSE resolution `sose_res`
(from `constants.py`, which is not in the sources, so it stays a
parameter).  Each disallowed extension direction and each failed final
bound check is a fatal error. -/
def soseTrimExtend (i_split : ℕ) (lon lonc lat latc z : List ℚ)
    (modelZ : List ℚ) (xmin xmax ymin ymax : ℚ) (res : ℚ) :
    Except String SoseAxes :=
  let sose_nx := lon.length
  let sose_ny := lat.length
  let sose_nz := z.length
  let z_shallow := modelZ.getD 0 0
  let z_deep := modelZ.getLastD 0
  (soseWest lon xmin).bind (fun i0_before =>
  let i0_after := 0
  (soseEast lonc xmax sose_nx).bind (fun i1_before =>
  let i1_after := i1_before - i0_before + i0_after
  let nx := i1_after
  (soseSouth lat ymin res).bind (fun jp =>
  let j0_before := jp.1
  let j0_after := jp.2
  (soseNorth latc ymax sose_ny).bind (fun j1_before =>
  let j1_after := j1_before - j0_before + j0_after
  let ny := j1_after
  -- Depth (grid.py lines 490-509)
  let k0_before := 0
  let k0_after := if z_shallow ≤ z.getD 0 0 then 0 else 1
  let k1_before :=
    if z_deep > z.getLastD 0 then
      match firstIdxLt z z_deep with
      | some idx => idx + 1
      | none => sose_nz
    else sose_nz
  let k1_after := k1_before + k0_after
  let nz := if z_deep < z.getLastD 0 then k1_after + 1 else k1_after
  -- Trim/extend the axes (grid.py lines 511-526)
  let lon2 := slice lon i0_before i1_before
  let lonc2 := slice lonc i0_before i1_before
  let lat2 := latExtendVals j0_after res (lat.getD j0_before 0) ++
    slice lat j0_before j1_before
  let latc2 := latExtendVals j0_after res (latc.getD j0_before 0) ++
    slice latc j0_before j1_before
  let z_above := List.replicate k0_after (0 : ℚ)
  let z_middle := slice z k0_before k1_before
  let z_below := List.replicate (nz - k1_after)
    (2 * modelZ.getLastD 0 - modelZ.getD (modelZ.length - 2) 0)
  let z2 := z_above ++ z_middle ++ z_below
  soseCheckBounds
    { trim_extend := true
      i_split := i_split
      i0_before := i0_before, i1_before := i1_before
      i0_after := i0_after, i1_after := i1_after
      j0_before := j0_before, j1_before := j1_before
      j0_after := j0_after, j1_after := j1_after
      k0_before := k0_before, k1_before := k1_before
      k0_after := k0_after, k1_after := k1_after
      nx := nx, ny := ny, nz := nz
      lon_1d := lon2, lon_corners_1d := lonc2
      lat_1d := lat2, lat_corners_1d := latc2
      z := z2 }
    xmin xmax ymin ymax z_shallow z_deep))))

/-- Core of `SOSEGrid.read_field` (grid.py lines 578-595) for a field with
no depth axis: rotate the raw data along longitude at `i_split`, allocate a
`(ny, nx)` array pre-filled with `fill_value`, and write the trimmed source
window `[j0_before:j1_before, i0_before:i1_before]` at the after-offsets
`[j0_after:j1_after, i0_after:i1_after]`. -/
def readFieldCoreXY (s : SoseAxes) (raw : List (List ℚ)) (fill : ℚ) :
    List (List ℚ) :=
  let dataOrig := raw.map (fun row => split_longitude row s.i_split)
  mkArr2 s.ny s.nx (fun j i =>
    if s.j0_after ≤ j ∧ j < s.j1_after ∧ s.i0_after ≤ i ∧ i < s.i1_after then
      (dataOrig.getD (j - s.j0_after + s.j0_before) []).getD
        (i - s.i0_after + s.i0_before) 0
    else fill)

/-- Core of `SOSEGrid.read_field` for a field with a depth axis: the window
additionally selects depth levels `[k0_before:k1_before]` placed at
`[k0_after:k1_after]`, inside a `(nz, ny, nx)` array pre-filled with
`fill_value`. -/
def readFieldCoreXYZ (s : SoseAxes) (raw : List (List (List ℚ))) (fill : ℚ) :
    List (List (List ℚ)) :=
  let dataOrig := raw.map (fun layer => layer.map
    (fun row => split_longitude row s.i_split))
  (List.range s.nz).map (fun k =>
    mkArr2 s.ny s.nx (fun j i =>
      if s.k0_after ≤ k ∧ k < s.k1_after ∧ s.j0_after ≤ j ∧ j < s.j1_after ∧
          s.i0_after ≤ i ∧ i < s.i1_after then
        ((dataOrig.getD (k - s.k0_after + s.k0_before) []).getD
          (j - s.j0_after + s.j0_before) []).getD
          (i - s.i0_after + s.i0_before) 0
      else fill))

/-- Behaviour of `SOSEGrid.read_field` when `dimensions` is `xy`: apply the
transform when
`trim_extend` is set, otherwise return the raw data unchanged. -/
def read_field_xy (s : SoseAxes) (raw : List (List ℚ)) (fill : ℚ) :
    List (List ℚ) :=
  if s.trim_extend then readFieldCoreXY s raw fill else raw

/-- Behaviour of `SOSEGrid.read_field` when `dimensions` is `xyz`. -/
def read_field_xyz (s : SoseAxes) (raw : List (List (List ℚ))) (fill : ℚ) :
    List (List (List ℚ)) :=
  if s.trim_extend then readFieldCoreXYZ s raw fill else raw

/-- Behaviour of `SOSEGrid.read_field` when `dimensions` is `xyt`: the
leading time axis
(`num_time = data_orig.shape[0]`) is preserved and the numpy ellipsis
assignment acts on each time slice independently. -/
def read_field_xyt (s : SoseAxes) (raw : List (List (List ℚ))) (fill : ℚ) :
    List (List (List ℚ)) :=
  if s.trim_extend then raw.map (fun sl => readFieldCoreXY s sl fill) else raw

/-- Behaviour of `SOSEGrid.read_field` when `dimensions` is `xyzt`. -/
def read_field_xyzt (s : SoseAxes) (raw : List (List (List (List ℚ))))
    (fill : ℚ) : List (List (List (List ℚ))) :=
  if s.trim_extend then raw.map (fun sl => readFieldCoreXYZ s sl fill) else raw

/-- Base-class accessor `Grid.get_lon_lat` (grid.py lines 220-246): `dim`
selects the 1D or 2D coordinate pair, `gtype` selects centres or corners per
component; any other `dim` or `gtype` is a fatal error.  For the separable
grids embedded here the 2D arrays are the meshgrid of the 1D axes, so the
result is reported as the pair of generating axes together with the chosen
`dim`. -/
def grid_get_lon_lat (g : Grid) (lonc latc : List ℚ) (gtype : String)
    (dim : ℕ) : Except String (List ℚ × List ℚ × ℕ) :=
  if dim = 1 ∨ dim = 2 then
    if gtype = "t" ∨ gtype = "w" then Except.ok (g.lon_1d, g.lat_1d, dim)
    else if gtype = "u" then Except.ok (lonc, g.lat_1d, dim)
    else if gtype = "v" then Except.ok (g.lon_1d, latc, dim)
    else if gtype = "psi" then Except.ok (lonc, latc, dim)
    else Except.error ("Error (get_lon_lat): invalid gtype " ++ gtype)
  else Except.error "Error (get_lon_lat): dim must be 1 or 2"

/-- Default `dim` of the base-class `Grid.get_lon_lat` signature
(`dim=2`). -/
def grid_get_lon_lat_default_dim : ℕ := 2

/-- Override `SOSEGrid.get_lon_lat` (grid.py lines 605-622): only `dim=1`
is accepted and the five grid types return their 1D axis pairs. -/
def sose_get_lon_lat (s : SoseAxes) (gtype : String) (dim : ℕ) :
    Except String (List ℚ × List ℚ) :=
  if dim ≠ 1 then
    Except.error "Error (get_lon_lat): must have dim=1 for SOSE grid"
  else if gtype = "t" ∨ gtype = "w" then Except.ok (s.lon_1d, s.lat_1d)
  else if gtype = "u" then Except.ok (s.lon_corners_1d, s.lat_1d)
  else if gtype = "v" then Except.ok (s.lon_1d, s.lat_corners_1d)
  else if gtype = "psi" then Except.ok (s.lon_corners_1d, s.lat_corners_1d)
  else Except.error ("Error (get_lon_lat): invalid gtype " ++ gtype)

/-- Default `dim` of the `SOSEGrid.get_lon_lat` signature (`dim=1`). -/
def sose_get_lon_lat_default_dim : ℕ := 1

/-- Override `SOSEGrid.get_ice_mask` (grid.py lines 632-634): always a fatal
error, for every grid type. -/
def sose_get_ice_mask (s : SoseAxes) (gtype : String) :
    Except String (List (List Bool)) :=
  Except.error "Error (SOSEGrid): no ice shelves to mask"

/-- Override `SOSEGrid.get_fris_mask` (grid.py lines 635-637): always a
fatal error, for every grid type. -/
def sose_get_fris_mask (s : SoseAxes) (gtype : String) :
    Except String (List (List Bool)) :=
  Except.error "Error (SOSEGrid): no ice shelves to mask"

/-! ## Concrete fixtures and specification predicates -/

/-- A trivial `SoseAxes` value used to instantiate universally quantified
theorems. -/
def soseAxes0 : SoseAxes where
  trim_extend := true
  i_split := 0
  i0_before := 0
  i1_before := 2
  i0_after := 0
  i1_after := 2
  j0_before := 0
  j1_before := 2
  j0_after := 1
  j1_after := 3
  k0_before := 0
  k1_before := 1
  k0_after := 0
  k1_after := 1
  nx := 2
  ny := 3
  nz := 1
  lon_1d := [0, 1]
  lon_corners_1d := [-1/2, 1/2]
  lat_1d := [-1, 0, 1]
  lat_corners_1d := [-3/2, -1/2, 1/2]
  z := [-1]

/-- Example FRIS bounds (western, eastern, southern) for concrete runs;
the real values live in `constants.py`, outside the sources. -/
def fb0 : FrisBounds := ⟨-85, -30, -85⟩

/-- A raw grid whose longitude axis stays non-monotonic after normalization
to the caller-supplied `max_lon = 360`. -/
def rawNonMono : GridRaw where
  lon_1d := [10, 5]
  lat_1d := [0]
  z := [-1]
  z_edges := [0, -2]
  dz := [2]
  hfac := [[[1, 1]]]
  hfac_w := [[[1, 1]]]
  hfac_s := [[[1, 1]]]
  wct := [[2, 2]]

/-- A 1×1×3 raw grid realizing the spec scenario at one point:
`hfac[0] = 0.5`, `z_edges = [0,-10,-20,-30]`, `dz = [10,10,10]`,
`wct = 25`. -/
def raw1 : GridRaw where
  lon_1d := [0]
  lat_1d := [-75]
  z := [-5, -15, -25]
  z_edges := [0, -10, -20, -30]
  dz := [10, 10, 10]
  hfac := [[[1/2]], [[1]], [[1]]]
  hfac_w := [[[1/2]], [[1]], [[1]]]
  hfac_s := [[[1/2]], [[1]], [[1]]]
  wct := [[25]]

/-- The `Grid` that `mkGrid (some 180) fb0 raw1` produces: draft `-5`
(= `0 − 10·(1−0.5)`), bathymetry `-30` (= `-5 − 25`). -/
def g1 : Grid where
  nx := 1
  ny := 1
  nz := 3
  lon_1d := [0]
  lat_1d := [-75]
  draft := [[-5]]
  bathy := [[-30]]
  wct := [[25]]
  land_mask := [[false]]
  land_mask_u := [[false]]
  land_mask_v := [[false]]
  ice_mask := [[true]]
  fris_mask := [[false]]

/-- The `SoseAxes` value produced by the concrete successful trim/extend run
used as a witness for C2 (pure trimming, everything already aligned). -/
def gW2 : SoseAxes where
  trim_extend := true
  i_split := 0
  i0_before := 0
  i1_before := 4
  i0_after := 0
  i1_after := 4
  j0_before := 0
  j1_before := 4
  j0_after := 0
  j1_after := 4
  k0_before := 0
  k1_before := 3
  k0_after := 0
  k1_after := 3
  nx := 4
  ny := 4
  nz := 3
  lon_1d := [1/2, 3/2, 5/2, 7/2]
  lon_corners_1d := [0, 1, 2, 3]
  lat_1d := [1/2, 3/2, 5/2, 7/2]
  lat_corners_1d := [0, 1, 2, 3]
  z := [-1, -2, -3]

/-- The `SoseAxes` value produced by the concrete five-degree southward
extension run used as a witness for C7. -/
def gW7 : SoseAxes where
  trim_extend := true
  i_split := 0
  i0_before := 0
  i1_before := 4
  i0_after := 0
  i1_after := 4
  j0_before := 0
  j1_before := 4
  j0_after := 5
  j1_after := 9
  k0_before := 0
  k1_before := 3
  k0_after := 0
  k1_after := 3
  nx := 4
  ny := 9
  nz := 3
  lon_1d := [1/2, 3/2, 5/2, 7/2]
  lon_corners_1d := [0, 1, 2, 3]
  lat_1d := [-5, -4, -3, -2, -1, 0, 1, 2, 3]
  lat_corners_1d := [-11/2, -9/2, -7/2, -5/2, -3/2, -1/2, 1/2, 3/2, 5/2]
  z := [-1, -2, -3]

/-- The index window of `SOSEGrid.read_field` on the horizontal axes: the
after-offsets into which the trimmed source data is written. -/
def InWindowXY (s : SoseAxes) (j i : ℕ) : Prop :=
  s.j0_after ≤ j ∧ j < s.j1_after ∧ s.i0_after ≤ i ∧ i < s.i1_after

/-- The index window of `SOSEGrid.read_field` including the depth axis. -/
def InWindowXYZ (s : SoseAxes) (k j i : ℕ) : Prop :=
  s.k0_after ≤ k ∧ k < s.k1_after ∧ InWindowXY s j i

instance (s : SoseAxes) (j i : ℕ) : Decidable (InWindowXY s j i) := by
  unfold InWindowXY
  infer_instance

instance (s : SoseAxes) (k j i : ℕ) : Decidable (InWindowXYZ s k j i) := by
  unfold InWindowXYZ
  infer_instance

/-- Contract of `SOSEGrid.read_field` for a depth-free field: the output
has the aligned shape `(ny, nx)`; inside the after-window it equals the
longitude-rotated source at the corresponding before-indices; everywhere
else it is exactly the fill value. -/
def ReadXYSpec (s : SoseAxes) (raw : List (List ℚ)) (fill : ℚ)
    (out : List (List ℚ)) : Prop :=
  out.length = s.ny ∧ (∀ row ∈ out, row.length = s.nx) ∧
  (∀ j i, InWindowXY s j i →
    (out.getD j []).getD i 0 =
      (split_longitude (raw.getD (j - s.j0_after + s.j0_before) [])
        s.i_split).getD (i - s.i0_after + s.i0_before) 0) ∧
  (∀ j i, j < s.ny → i < s.nx → ¬ InWindowXY s j i →
    (out.getD j []).getD i 0 = fill)

/-- Contract of `SOSEGrid.read_field` for a field with a depth axis. -/
def ReadXYZSpec (s : SoseAxes) (raw : List (List (List ℚ))) (fill : ℚ)
    (out : List (List (List ℚ))) : Prop :=
  out.length = s.nz ∧
  (∀ pl ∈ out, pl.length = s.ny ∧ ∀ row ∈ pl, row.length = s.nx) ∧
  (∀ k j i, InWindowXYZ s k j i →
    ((out.getD k []).getD j []).getD i 0 =
      (split_longitude ((raw.getD (k - s.k0_after + s.k0_before) []).getD
        (j - s.j0_after + s.j0_before) []) s.i_split).getD
        (i - s.i0_after + s.i0_before) 0) ∧
  (∀ k j i, k < s.nz → j < s.ny → i < s.nx → ¬ InWindowXYZ s k j i →
    ((out.getD k []).getD j []).getD i 0 = fill)

/-! ## Helper lemmas -/

lemma fixLonVal_range (m x : ℚ) : m - 360 < fixLonVal m x ∧ fixLonVal m x ≤ m := by
  unfold fixLonVal
  have h360 : (0 : ℚ) < 360 := by norm_num
  have h1 : (x - m) / 360 ≤ ((⌈(x - m) / 360⌉ : ℤ) : ℚ) := Int.le_ceil _
  have h2 : ((⌈(x - m) / 360⌉ : ℤ) : ℚ) < (x - m) / 360 + 1 := Int.ceil_lt_add_one _
  have h1' : x - m ≤ ((⌈(x - m) / 360⌉ : ℤ) : ℚ) * 360 := (div_le_iff h360).mp h1
  have h2' : (((⌈(x - m) / 360⌉ : ℤ) : ℚ) - 1) * 360 < x - m :=
    (lt_div_iff h360).mp (by linarith)
  constructor <;> linarith

lemma fixLonVal_eq_self (m x : ℚ) (h1 : m - 360 < x) (h2 : x ≤ m) :
    fixLonVal m x = x := by
  unfold fixLonVal
  have h360 : (0 : ℚ) < 360 := by norm_num
  have hc : ⌈(x - m) / 360⌉ = 0 := by
    have hle : ⌈(x - m) / 360⌉ ≤ 0 := by
      rw [Int.ceil_le]
      push_cast
      rw [div_le_iff h360]
      linarith
    have hgt : (-1 : ℤ) < ⌈(x - m) / 360⌉ := by
      rw [Int.lt_ceil]
      push_cast
      rw [lt_div_iff h360]
      linarith
    omega
  rw [hc]
  push_cast
  ring

lemma fixLonVal_idem (m x : ℚ) : fixLonVal m (fixLonVal m x) = fixLonVal m x :=
  fixLonVal_eq_self m _ (fixLonVal_range m x).1 (fixLonVal_range m x).2

lemma except_bind_ok {ε α β : Type} (e : Except ε α) (f : α → Except ε β)
    (b : β) (h : e.bind f = Except.ok b) :
    ∃ a, e = Except.ok a ∧ f a = Except.ok b := by
  cases e with
  | error msg => exact absurd h (by simp [Except.bind])
  | ok a => exact ⟨a, rfl, h⟩

lemma mkArr2_length {α : Type} (ny nx : ℕ) (f : ℕ → ℕ → α) :
    (mkArr2 ny nx f).length = ny := by
  simp [mkArr2]

lemma mkArr2_getD {α : Type} (ny nx : ℕ) (f : ℕ → ℕ → α) (j i : ℕ)
    (hj : j < ny) (hi : i < nx) (dr : List α) (d : α) :
    (((mkArr2 ny nx f).getD j dr).getD i d) = f j i := by
  unfold mkArr2
  have hj2 : j < ((List.range ny).map
      (fun j => (List.range nx).map (fun i => f j i))).length := by
    simpa using hj
  rw [List.getD_eq_getElem _ dr hj2, List.getElem_map, List.getElem_range]
  have hi2 : i < ((List.range nx).map (fun k => f j k)).length := by
    simpa using hi
  rw [List.getD_eq_getElem _ d hi2, List.getElem_map, List.getElem_range]

/-! ## Claim theorems -/

/-- C9: on a `SOSEGrid`, for every grid object and every `gtype` argument,
both `get_ice_mask` and `get_fris_mask` unconditionally raise a fatal
unsupported-operation error and never return a mask. -/
theorem sose_ice_fris_accessors_always_fail (s : SoseAxes) (gtype : String) :
    sose_get_ice_mask s gtype =
      Except.error "Error (SOSEGrid): no ice shelves to mask" ∧
    sose_get_fris_mask s gtype =
      Except.error "Error (SOSEGrid): no ice shelves to mask" :=
  ⟨rfl, rfl⟩

/-- C10: `SOSEGrid.get_lon_lat` accepts only `dim = 1` (its signature
default, while the base `Grid.get_lon_lat` default is `dim = 2`): any other
`dim` is a fatal error, and with `dim = 1` each of the five grid types
returns its 1D axis pair. -/
theorem sose_get_lon_lat_spec (s : SoseAxes) (gtype : String) (dim : ℕ) :
    (dim ≠ 1 → sose_get_lon_lat s gtype dim =
      Except.error "Error (get_lon_lat): must have dim=1 for SOSE grid") ∧
    sose_get_lon_lat s "t" 1 = Except.ok (s.lon_1d, s.lat_1d) ∧
    sose_get_lon_lat s "w" 1 = Except.ok (s.lon_1d, s.lat_1d) ∧
    sose_get_lon_lat s "u" 1 = Except.ok (s.lon_corners_1d, s.lat_1d) ∧
    sose_get_lon_lat s "v" 1 = Except.ok (s.lon_1d, s.lat_corners_1d) ∧
    sose_get_lon_lat s "psi" 1 = Except.ok (s.lon_corners_1d, s.lat_corners_1d) ∧
    sose_get_lon_lat_default_dim = 1 ∧
    grid_get_lon_lat_default_dim = 2 := by
  refine ⟨fun h => ?_, ?_, ?_, ?_, ?_, ?_, rfl, rfl⟩
  · simp [sose_get_lon_lat, h]
  all_goals simp [sose_get_lon_lat]

/-- Witness for C10: the base-grid default `dim = 2` is rejected by the
SOSE override on a concrete grid. -/
theorem sose_get_lon_lat_spec_witness :
    sose_get_lon_lat soseAxes0 "t" 2 =
      Except.error "Error (get_lon_lat): must have dim=1 for SOSE grid" :=
  (sose_get_lon_lat_spec soseAxes0 "t" 2).1 (by decide)

/-- C3 (counterexample): with a caller-supplied `max_lon` the monotonicity
check of `Grid.__init__` is skipped entirely, so construction succeeds on
the raw axis `[10, 5]` (unchanged by normalization to `(0, 360]`) even
though the resulting centre-longitude axis is not strictly increasing —
contradicting the claim that this fails regardless of whether `max_lon` was
supplied or auto-detected. -/
theorem mkGrid_supplied_max_lon_skips_check :
    Except.map (fun g => strictlyIncreasing g.lon_1d)
      (mkGrid (some 360) fb0 rawNonMono) = Except.ok false := by
  have hlon : [(10 : ℚ), 5].map (fixLonVal 360) = [10, 5] := by
    norm_num [fixLonVal]
  simp only [mkGrid, gridNormalizeLon, rawNonMono, hlon, Except.map]
  simp [strictlyIncreasing]
  norm_num

lemma normalizeLonTest_ok (m : ℚ) (lon out : List ℚ) (msg : String)
    (h : (if strictlyIncreasing (lon.map (fixLonVal m)) = true then
        Except.ok ((lon.map (fixLonVal m)).map (fixLonVal m))
      else Except.error msg) = Except.ok out) :
    strictlyIncreasing out = true := by
  split at h
  case isTrue hsi =>
    have hmap : (lon.map (fixLonVal m)).map (fixLonVal m) =
        lon.map (fixLonVal m) := by
      rw [List.map_map]
      exact List.map_congr_left (fun a _ => by
        simp only [Function.comp_apply, fixLonVal_idem])
    rw [hmap] at h
    injection h with h2
    rw [← h2]
    exact hsi
  case isFalse hsi => simp at h

/-- C3 (amended): when `max_lon` is auto-detected (the caller passed
`None`, with `x_is_lon` true), a successful longitude normalization always
yields a strictly increasing 1D centre-longitude axis; a non-monotonic axis
is a fatal configuration error on that path.  (With a caller-supplied
`max_lon` the check is skipped, see the counterexample theorem.) -/
theorem gridNormalizeLon_auto_monotonic (lon out : List ℚ)
    (h : gridNormalizeLon none lon = Except.ok out) :
    strictlyIncreasing out = true := by
  simp only [gridNormalizeLon] at h
  split at h
  · exact normalizeLonTest_ok 360 lon out _ h
  · exact normalizeLonTest_ok 180 lon out _ h

/-- Witness for the amended C3: a concrete auto-detected normalization
succeeds and its output axis is indeed strictly increasing. -/
theorem gridNormalizeLon_auto_monotonic_witness :
    strictlyIncreasing [(0 : ℚ), 10] = true := by
  refine gridNormalizeLon_auto_monotonic [0, 10] [0, 10] ?_
  have hm : ¬ (rawMin [(0 : ℚ), 10] < 180 ∧ rawMax [(0 : ℚ), 10] > 180) := by
    norm_num [rawMin, rawMax, List.foldl, min_def, max_def]
  have h0 : fixLonVal (180 : ℚ) 0 = 0 := by norm_num [fixLonVal]
  have h10 : fixLonVal (180 : ℚ) 10 = 10 := by norm_num [fixLonVal]
  simp only [gridNormalizeLon, if_neg hm, List.map_cons, List.map_nil, h0, h10]
  simp [strictlyIncreasing]

lemma zipWith2_sub_getD (A W : List (List ℚ)) (j i : ℕ)
    (hj : j < (A.zipWith (fun dr wr => dr.zipWith (fun d w => d - w) wr) W).length)
    (hi : i < ((A.zipWith (fun dr wr => dr.zipWith (fun d w => d - w) wr) W).getD
      j []).length) :
    ((A.zipWith (fun dr wr => dr.zipWith (fun d w => d - w) wr) W).getD j []).getD
      i 0 = (A.getD j []).getD i 0 - (W.getD j []).getD i 0 := by
  have hj1 : j < A.length := by
    simp only [List.length_zipWith, lt_min_iff] at hj
    exact hj.1
  have hj2 : j < W.length := by
    simp only [List.length_zipWith, lt_min_iff] at hj
    exact hj.2
  rw [List.getD_eq_getElem _ _ hj, List.getElem_zipWith] at hi ⊢
  have hi1 : i < (A[j]).length := by
    simp only [List.length_zipWith, lt_min_iff] at hi
    exact hi.1
  have hi2 : i < (W[j]).length := by
    simp only [List.length_zipWith, lt_min_iff] at hi
    exact hi.2
  rw [List.getD_eq_getElem _ _ hi, List.getElem_zipWith,
    List.getD_eq_getElem A _ hj1, List.getD_eq_getElem W _ hj2,
    List.getD_eq_getElem _ _ hi1, List.getD_eq_getElem _ _ hi2]

/-- C4: in every successfully constructed `Grid`, the bathymetry is exactly
the ice-shelf draft minus the water column thickness, elementwise at every
valid horizontal cell (grid.py line 152, `self.bathy = self.draft -
self.wct`). -/
theorem mkGrid_bathy_eq_draft_sub_wct (maxLonOpt : Option ℚ) (fb : FrisBounds)
    (raw : GridRaw) (g : Grid) (h : mkGrid maxLonOpt fb raw = Except.ok g)
    (j i : ℕ) (hj : j < g.bathy.length)
    (hi : i < (g.bathy.getD j []).length) :
    (g.bathy.getD j []).getD i 0 =
      (g.draft.getD j []).getD i 0 - (g.wct.getD j []).getD i 0 := by
  cases he : gridNormalizeLon maxLonOpt raw.lon_1d with
  | error msg =>
    unfold mkGrid at h
    rw [he] at h
    exact absurd h (by simp)
  | ok lon =>
    unfold mkGrid at h
    rw [he] at h
    injection h with hg
    subst hg
    dsimp only at hj hi ⊢
    exact zipWith2_sub_getD _ _ j i hj hi

lemma mkGrid_raw1 : mkGrid (some 180) fb0 raw1 = Except.ok g1 := by
  have hlon : gridNormalizeLon (some 180) raw1.lon_1d = Except.ok [0] := by
    have h0 : fixLonVal (180 : ℚ) 0 = 0 := by norm_num [fixLonVal]
    simp [gridNormalizeLon, raw1, h0]
  unfold mkGrid
  rw [hlon]
  simp only [g1, raw1, fb0, mkArr2, columnAt, draftCol, draftColAux, landPoint,
    icePoint, frisPoint, List.range_succ, List.range_zero, List.map, List.zip,
    List.zipWith, List.getD, Grid.mk.injEq]
  simp
  norm_num

/-- Witness for C4: the invariant instantiated on the concrete constructed
grid `g1`. -/
theorem mkGrid_bathy_eq_draft_sub_wct_witness :
    (g1.bathy.getD 0 []).getD 0 0 =
      (g1.draft.getD 0 []).getD 0 0 - (g1.wct.getD 0 []).getD 0 0 :=
  mkGrid_bathy_eq_draft_sub_wct (some 180) fb0 raw1 g1 mkGrid_raw1 0 0
    (by simp [g1]) (by simp [g1])

lemma draftColAux_acc_some (L : List (ℚ × ℚ × ℚ)) (v : ℚ) :
    draftColAux L (some v) = some v := by
  induction L with
  | nil => rfl
  | cons t rest ih =>
    simp only [draftColAux]
    rw [if_neg (by simp)]
    exact ih

lemma draftColAux_all_zero (L : List (ℚ × ℚ × ℚ))
    (hall : ∀ t ∈ L, t.2.2 = 0) : draftColAux L none = none := by
  induction L with
  | nil => rfl
  | cons t rest ih =>
    simp only [draftColAux]
    have h0 : t.2.2 = 0 := hall t (List.mem_cons_self t rest)
    rw [if_neg (by simp [h0])]
    exact ih (fun x hx => hall x (List.mem_cons_of_mem t hx))

lemma draftColAux_first (L : List (ℚ × ℚ × ℚ)) (k : ℕ) (hk : k < L.length)
    (hnz : (L.getD k (0, 0, 0)).2.2 ≠ 0)
    (hz : ∀ m, m < k → (L.getD m (0, 0, 0)).2.2 = 0) :
    draftColAux L none = some ((L.getD k (0, 0, 0)).1 -
      (L.getD k (0, 0, 0)).2.1 * (1 - (L.getD k (0, 0, 0)).2.2)) := by
  induction L generalizing k with
  | nil => simp at hk
  | cons t rest ih =>
    cases k with
    | zero =>
      simp only [List.getD_cons_zero] at hnz ⊢
      simp only [draftColAux]
      rw [if_pos ⟨hnz, trivial⟩]
      exact draftColAux_acc_some rest _
    | succ k =>
      have h0 : t.2.2 = 0 := by
        have h00 := hz 0 (Nat.succ_pos k)
        simpa using h00
      simp only [draftColAux]
      rw [if_neg (by simp [h0])]
      have hk2 : k < rest.length := by simpa using hk
      have hnz2 : (rest.getD k (0, 0, 0)).2.2 ≠ 0 := by
        simpa [List.getD_cons_succ] using hnz
      have hz2 : ∀ m, m < k → (rest.getD m (0, 0, 0)).2.2 = 0 := fun m hm => by
        have hzz := hz (m + 1) (by omega)
        simpa [List.getD_cons_succ] using hzz
      simpa [List.getD_cons_succ] using ih k hk2 hnz2 hz2

lemma zip3_length (zE dzs col : List ℚ)
    (h1 : dzs.length = col.length) (h2 : zE.length = col.length + 1) :
    (zE.zip (dzs.zip col)).length = col.length := by
  simp only [List.length_zip, h1, h2]
  omega

lemma zip3_getD (zE dzs col : List ℚ) (k : ℕ) (hk : k < col.length)
    (h1 : dzs.length = col.length) (h2 : zE.length = col.length + 1) :
    (zE.zip (dzs.zip col)).getD k (0, 0, 0) =
      (zE.getD k 0, dzs.getD k 0, col.getD k 0) := by
  have hlen := zip3_length zE dzs col h1 h2
  rw [List.getD_eq_getElem _ _ (by rw [hlen]; exact hk)]
  rw [List.getElem_zip, List.getElem_zip]
  rw [List.getD_eq_getElem zE _ (by omega), List.getD_eq_getElem dzs _ (by omega),
    List.getD_eq_getElem col _ hk]

lemma draftCol_all_zero (zE dzs col : List ℚ)
    (hall : ∀ x ∈ col, x = 0) : draftCol zE dzs col = 0 := by
  unfold draftCol
  rw [draftColAux_all_zero]
  · rfl
  · intro t ht
    have h2 := (List.of_mem_zip ht).2
    have h3 := (List.of_mem_zip h2).2
    exact hall _ h3

lemma draftCol_first_wet (zE dzs col : List ℚ) (k : ℕ) (hk : k < col.length)
    (h1 : dzs.length = col.length) (h2 : zE.length = col.length + 1)
    (hnz : col.getD k 0 ≠ 0) (hz : ∀ m, m < k → col.getD m 0 = 0) :
    draftCol zE dzs col = zE.getD k 0 - dzs.getD k 0 * (1 - col.getD k 0) := by
  unfold draftCol
  have hlen := zip3_length zE dzs col h1 h2
  rw [draftColAux_first _ k (by rw [hlen]; exact hk)]
  · rw [zip3_getD zE dzs col k hk h1 h2]
    rfl
  · rw [zip3_getD zE dzs col k hk h1 h2]
    exact hnz
  · intro m hm
    rw [zip3_getD zE dzs col m (by omega) h1 h2]
    exact hz m hm

/-- C1: in every successfully constructed `Grid`, the ice-shelf draft at
each horizontal location is `z_edges[k] − dz[k]·(1 − hfac[k,j,i])` where `k`
is the topmost layer with nonzero `hfac` there, and `0` when the whole
column has zero `hfac` (grid.py lines 138-149). -/
theorem mkGrid_draft_first_wet (maxLonOpt : Option ℚ) (fb : FrisBounds)
    (raw : GridRaw) (g : Grid) (h : mkGrid maxLonOpt fb raw = Except.ok g)
    (hdz : raw.dz.length = raw.hfac.length)
    (hze : raw.z_edges.length = raw.hfac.length + 1)
    (j i : ℕ) (hj : j < g.ny) (hi : i < g.nx) :
    ((∀ x ∈ columnAt raw.hfac j i, x = 0) →
      (g.draft.getD j []).getD i 0 = 0) ∧
    (∀ k, k < raw.hfac.length →
      (columnAt raw.hfac j i).getD k 0 ≠ 0 →
      (∀ m, m < k → (columnAt raw.hfac j i).getD m 0 = 0) →
      (g.draft.getD j []).getD i 0 =
        raw.z_edges.getD k 0 - raw.dz.getD k 0 *
          (1 - (columnAt raw.hfac j i).getD k 0)) := by
  have hcol : (columnAt raw.hfac j i).length = raw.hfac.length :=
    List.length_map _ _
  cases he : gridNormalizeLon maxLonOpt raw.lon_1d with
  | error msg =>
    unfold mkGrid at h
    rw [he] at h
    exact absurd h (by simp)
  | ok lon =>
    unfold mkGrid at h
    rw [he] at h
    injection h with hg
    subst hg
    dsimp only at hj hi ⊢
    rw [mkArr2_getD _ _ _ j i hj hi]
    constructor
    · intro hall
      exact draftCol_all_zero _ _ _ hall
    · intro k hk hnz hz
      exact draftCol_first_wet _ _ _ k (by omega) (by rw [hcol]; exact hdz)
        (by rw [hcol]; exact hze) hnz hz

/-- Witness for C1: on the concrete grid `raw1` (top layer `hfac = 0.5`,
`z_edges = [0,-10,-20,-30]`, `dz = [10,10,10]`), the draft at the single
horizontal point is given by the first-wet-layer formula at `k = 0`, and its
value is `0 − 10·(1 − 0.5) = −5`. -/
theorem mkGrid_draft_first_wet_witness :
    (g1.draft.getD 0 []).getD 0 0 =
      raw1.z_edges.getD 0 0 - raw1.dz.getD 0 0 *
        (1 - (columnAt raw1.hfac 0 0).getD 0 0) ∧
    (g1.draft.getD 0 []).getD 0 0 = -5 :=
  ⟨(mkGrid_draft_first_wet (some 180) fb0 raw1 g1 mkGrid_raw1
      (by simp [raw1]) (by simp [raw1]) 0 0 (by simp [g1]) (by simp [g1])).2
    0 (by simp [raw1]) (by norm_num [raw1, columnAt]) (by omega),
   by norm_num [g1]⟩

lemma list_sum_zero_iff (col : List ℚ) (h : ∀ x ∈ col, 0 ≤ x) :
    col.sum = 0 ↔ ∀ x ∈ col, x = 0 := by
  induction col with
  | nil => simp
  | cons a l ih =>
    have ha : 0 ≤ a := h a (by simp)
    have hl : ∀ x ∈ l, 0 ≤ x := fun x hx => h x (by simp [hx])
    have hsum : 0 ≤ l.sum := List.sum_nonneg hl
    simp only [List.sum_cons, List.mem_cons]
    constructor
    · intro h0
      have ha0 : a = 0 := by linarith
      have hl0 : l.sum = 0 := by linarith
      intro x hx
      rcases hx with rfl | hx
      · exact ha0
      · exact (ih hl).mp hl0 x hx
    · intro hall
      have ha0 : a = 0 := hall a (Or.inl rfl)
      have hl0 : l.sum = 0 := (ih hl).mpr (fun x hx => hall x (Or.inr hx))
      rw [ha0, hl0, add_zero]

/-- C5: for every `hfac` array with entries in `[0, 1]`, the land-mask test
of `build_land_mask` is true at a horizontal point exactly when the column
sum of `hfac` over depth vanishes; being land-masked and having some
nonzero `hfac` entry in the column are mutually exclusive and exhaustive.
In every constructed `Grid` this pointwise test is what populates the
land masks of the tracer, u and v sub-grids (from `hfac`, `hfac_w`,
`hfac_s` respectively). -/
theorem build_land_mask_partition (hfac : List (List (List ℚ))) (j i : ℕ)
    (hrange : ∀ x ∈ columnAt hfac j i, 0 ≤ x ∧ x ≤ 1) :
    ((landPoint (columnAt hfac j i) = true ↔ (columnAt hfac j i).sum = 0) ∧
      Xor' (landPoint (columnAt hfac j i) = true)
        (∃ x ∈ columnAt hfac j i, x ≠ 0)) ∧
    (∀ maxLonOpt fb raw g, mkGrid maxLonOpt fb raw = Except.ok g →
      j < g.ny → i < g.nx →
      (g.land_mask.getD j []).getD i false = landPoint (columnAt raw.hfac j i) ∧
      (g.land_mask_u.getD j []).getD i false =
        landPoint (columnAt raw.hfac_w j i) ∧
      (g.land_mask_v.getD j []).getD i false =
        landPoint (columnAt raw.hfac_s j i)) := by
  constructor
  · have h0 : ∀ x ∈ columnAt hfac j i, 0 ≤ x := fun x hx => (hrange x hx).1
    have hiff := list_sum_zero_iff (columnAt hfac j i) h0
    have hex : (∃ x ∈ columnAt hfac j i, x ≠ 0) ↔
        ¬ ∀ x ∈ columnAt hfac j i, x = 0 := by
      push_neg
      rfl
    constructor
    · simp [landPoint]
    · simp only [landPoint, decide_eq_true_eq, Xor']
      by_cases hs : (columnAt hfac j i).sum = 0
      · exact Or.inl ⟨hs, by rw [hex]; push_neg; exact hiff.mp hs⟩
      · exact Or.inr ⟨hex.mpr (fun hall => hs (hiff.mpr hall)), hs⟩
  · intro maxLonOpt fb raw g h hj hi
    cases he : gridNormalizeLon maxLonOpt raw.lon_1d with
    | error msg =>
      unfold mkGrid at h
      rw [he] at h
      exact absurd h (by simp)
    | ok lon =>
      unfold mkGrid at h
      rw [he] at h
      injection h with hg
      subst hg
      dsimp only at hj hi ⊢
      refine ⟨?_, ?_, ?_⟩ <;> rw [mkArr2_getD _ _ _ j i hj hi]

/-- Witness for C5: on the concrete column `[0.5, 1, 1]` of `raw1`, the
point is not land-masked and the column has a nonzero entry (exactly one of
the two holds). -/
theorem build_land_mask_partition_witness :
    Xor' (landPoint (columnAt raw1.hfac 0 0) = true)
      (∃ x ∈ columnAt raw1.hfac 0 0, x ≠ 0) :=
  (build_land_mask_partition raw1.hfac 0 0
    (by norm_num [raw1, columnAt])).1.2

/-- C6: for FRIS bounds whose western edge lies at or west of 45°W (as the
spec's two-box split at 45°W requires), the FRIS-mask test of
`build_fris_mask` holds at a point exactly when the point is in the ice
mask and lies either in region A (longitude in `[west, −45]`, latitude in
`[south, −74.7]`) or in region B (longitude in `(−45, east]`, latitude in
`[south, −77.85]`); in particular at longitude exactly −45 only region A's
latitude cap matters.  In every constructed `Grid` this pointwise test with
the cell's coordinates is what populates the FRIS mask. -/
theorem build_fris_mask_characterization (fb : FrisBounds)
    (hw : fb.west ≤ -45) :
    (∀ (ice : Bool) (lon lat : ℚ),
      frisPoint fb ice lon lat = true ↔
        (ice = true ∧
          ((fb.west ≤ lon ∧ lon ≤ -45 ∧ fb.south ≤ lat ∧ lat ≤ -74.7) ∨
           (-45 < lon ∧ lon ≤ fb.east ∧ fb.south ≤ lat ∧ lat ≤ -77.85)))) ∧
    (∀ maxLonOpt raw g, mkGrid maxLonOpt fb raw = Except.ok g →
      ∀ j i, j < g.ny → i < g.nx →
        (g.fris_mask.getD j []).getD i false =
          frisPoint fb ((g.ice_mask.getD j []).getD i false)
            (g.lon_1d.getD i 0) (g.lat_1d.getD j 0)) := by
  constructor
  · intro ice lon lat
    have hcap : (-77.85 : ℚ) ≤ -74.7 := by norm_num
    simp only [frisPoint, Bool.or_eq_true, Bool.and_eq_true, decide_eq_true_eq,
      ge_iff_le]
    constructor
    · rintro (⟨⟨⟨⟨hi, h1⟩, h2⟩, h3⟩, h4⟩ | ⟨⟨⟨⟨hi, h1⟩, h2⟩, h3⟩, h4⟩)
      · exact ⟨hi, Or.inl ⟨h1, h2, h3, h4⟩⟩
      · by_cases hlt : -45 < lon
        · exact ⟨hi, Or.inr ⟨hlt, h2, h3, h4⟩⟩
        · have he : lon = -45 := le_antisymm (not_lt.mp hlt) h1
          exact ⟨hi, Or.inl ⟨by rw [he]; exact hw, by rw [he], h3, by linarith⟩⟩
    · rintro ⟨hi, (⟨h1, h2, h3, h4⟩ | ⟨h1, h2, h3, h4⟩)⟩
      · exact Or.inl ⟨⟨⟨⟨hi, h1⟩, h2⟩, h3⟩, h4⟩
      · exact Or.inr ⟨⟨⟨⟨hi, le_of_lt h1⟩, h2⟩, h3⟩, h4⟩
  · intro maxLonOpt raw g h j i hj hi
    cases he : gridNormalizeLon maxLonOpt raw.lon_1d with
    | error msg =>
      unfold mkGrid at h
      rw [he] at h
      exact absurd h (by simp)
    | ok lon =>
      unfold mkGrid at h
      rw [he] at h
      injection h with hg
      subst hg
      dsimp only at hj hi ⊢
      rw [mkArr2_getD _ _ _ j i hj hi]

/-- Witness for C6: a point at 50°W, 76°S inside the ice mask satisfies
region A and is in the FRIS mask of `fb0`. -/
theorem build_fris_mask_characterization_witness :
    frisPoint fb0 true (-50) (-76) = true :=
  ((build_fris_mask_characterization fb0 (by norm_num [fb0])).1
    true (-50) (-76)).mpr
    ⟨rfl, Or.inl ⟨by norm_num [fb0], by norm_num, by norm_num [fb0],
      by norm_num⟩⟩

lemma take_append_length {α : Type} (a b : List α) (n : ℕ)
    (h : a.length = n) : (a ++ b).take n = a := by
  subst h
  exact List.take_left a b

lemma soseCheckBounds_ok (a g : SoseAxes) (xmin xmax ymin ymax zs zd : ℚ)
    (h : soseCheckBounds a xmin xmax ymin ymax zs zd = Except.ok g) :
    g = a ∧ a.lon_corners_1d.getD 0 0 ≤ xmin ∧
    xmax ≤ a.lon_corners_1d.getLastD 0 ∧
    a.lat_corners_1d.getD 0 0 ≤ ymin ∧
    ymax ≤ a.lat_corners_1d.getLastD 0 ∧
    zs ≤ a.z.getD 0 0 ∧ a.z.getLastD 0 ≤ zd := by
  unfold soseCheckBounds at h
  split_ifs at h with h1 h2 h3 h4 h5 h6
  injection h with hg
  exact ⟨hg.symm, not_lt.mp h1, not_lt.mp h2, not_lt.mp h3, not_lt.mp h4,
    not_lt.mp h5, not_lt.mp h6⟩

/-- C2: whenever `soseTrimExtend` (the trim/extend stage of
`SOSEGrid.__init__` with a target model grid) succeeds, the resulting axes
cover all six target bounds: the corner-longitude axis reaches at or beyond
the western and eastern bounds, the corner-latitude axis at or beyond the
southern and northern bounds, and the depth axis at or beyond the target's
shallowest and deepest centre depths; any violated bound aborts
construction instead (grid.py lines 528-546). -/
theorem soseTrimExtend_covers_bounds (i_split : ℕ)
    (lon lonc lat latc z modelZ : List ℚ) (xmin xmax ymin ymax res : ℚ)
    (g : SoseAxes)
    (h : soseTrimExtend i_split lon lonc lat latc z modelZ
      xmin xmax ymin ymax res = Except.ok g) :
    g.lon_corners_1d.getD 0 0 ≤ xmin ∧
    xmax ≤ g.lon_corners_1d.getLastD 0 ∧
    g.lat_corners_1d.getD 0 0 ≤ ymin ∧
    ymax ≤ g.lat_corners_1d.getLastD 0 ∧
    modelZ.getD 0 0 ≤ g.z.getD 0 0 ∧
    g.z.getLastD 0 ≤ modelZ.getLastD 0 := by
  unfold soseTrimExtend at h
  obtain ⟨i0, hi0, h⟩ := except_bind_ok _ _ _ h
  obtain ⟨i1, hi1, h⟩ := except_bind_ok _ _ _ h
  obtain ⟨jp, hjp, h⟩ := except_bind_ok _ _ _ h
  obtain ⟨j1, hj1, h⟩ := except_bind_ok _ _ _ h
  obtain ⟨hg, c1, c2, c3, c4, c5, c6⟩ := soseCheckBounds_ok _ _ _ _ _ _ _ _ h
  rw [hg]
  exact ⟨c1, c2, c3, c4, c5, c6⟩

lemma soseTrimExtend_gW2 :
    soseTrimExtend 0 [1/2, 3/2, 5/2, 7/2] [0, 1, 2, 3] [1/2, 3/2, 5/2, 7/2]
      [0, 1, 2, 3] [-1, -2, -3] [-1, -2, -3] (1/2) 3 (1/2) 3 (1/6) =
      Except.ok gW2 := by
  norm_num [soseTrimExtend, soseWest, soseEast, soseSouth, soseNorth,
    soseCheckBounds, Except.bind, slice, latExtendVals, List.getD,
    List.getLastD, gW2]

/-- Witness for C2: on a concrete successful construction, all six cover
conditions hold. -/
theorem soseTrimExtend_covers_bounds_witness :
    gW2.lon_corners_1d.getD 0 0 ≤ 1/2 ∧
    (3 : ℚ) ≤ gW2.lon_corners_1d.getLastD 0 ∧
    gW2.lat_corners_1d.getD 0 0 ≤ 1/2 ∧
    (3 : ℚ) ≤ gW2.lat_corners_1d.getLastD 0 ∧
    [(-1 : ℚ), -2, -3].getD 0 0 ≤ gW2.z.getD 0 0 ∧
    gW2.z.getLastD 0 ≤ [(-1 : ℚ), -2, -3].getLastD 0 :=
  soseTrimExtend_covers_bounds 0 [1/2, 3/2, 5/2, 7/2] [0, 1, 2, 3]
    [1/2, 3/2, 5/2, 7/2] [0, 1, 2, 3] [-1, -2, -3] [-1, -2, -3]
    (1/2) 3 (1/2) 3 (1/6) gW2 soseTrimExtend_gW2

lemma latExtendVals_length (n : ℕ) (res base : ℚ) :
    (latExtendVals n res base).length = n := by
  simp [latExtendVals]

lemma latExtendVals_getD (n : ℕ) (res base : ℚ) (m : ℕ) (hm : m < n) :
    (latExtendVals n res base).getD m 0 = base - ((n : ℚ) - m) * res := by
  unfold latExtendVals
  have hlen : (((List.range n).map
      (fun m : ℕ => -1 * ((m : ℚ) + 1) * res + base)).reverse).length = n := by
    simp
  rw [List.getD_eq_getElem _ _ (by rw [hlen]; exact hm)]
  rw [List.getElem_reverse, List.getElem_map, List.getElem_range]
  simp only [List.length_map, List.length_range]
  have hcast : ((n - 1 - m : ℕ) : ℚ) = (n : ℚ) - 1 - m := by
    have he : (n - 1 - m : ℕ) = n - (m + 1) := by omega
    rw [he, Nat.cast_sub (by omega)]
    push_cast
    ring
  rw [hcast]
  ring

lemma latExtendVals_chain (n : ℕ) (res base : ℚ) (hres : 0 < res) :
    List.Chain' (fun a b => a < b) (latExtendVals n res base) := by
  rw [List.chain'_iff_get]
  intro idx hidx
  have hlen : (latExtendVals n res base).length = n := latExtendVals_length n res base
  rw [hlen] at hidx
  have h1 : idx < n := by omega
  have h2 : idx + 1 < n := by omega
  have g1 := latExtendVals_getD n res base idx h1
  have g2 := latExtendVals_getD n res base (idx + 1) h2
  rw [List.getD_eq_getElem _ _ (by rw [hlen]; exact h1)] at g1
  rw [List.getD_eq_getElem _ _ (by rw [hlen]; exact h2)] at g2
  rw [List.get_eq_getElem, List.get_eq_getElem, g1, g2]
  have hc : ((idx + 1 : ℕ) : ℚ) = (idx : ℚ) + 1 := by push_cast; ring
  rw [hc]
  nlinarith [hres]

lemma soseSouth_extend (lat : List ℚ) (ymin res : ℚ)
    (hymin : ymin < lat.getD 0 0) :
    soseSouth lat ymin res =
      Except.ok (0, j0AfterExtend (lat.getD 0 0) ymin res) := by
  unfold soseSouth
  rw [if_neg (ne_of_lt hymin), if_neg (not_lt.mpr (le_of_lt hymin))]

/-- C7: whenever `soseTrimExtend` succeeds with a target minimum latitude
strictly south of the source's southernmost native centre latitude, the
southward extension count is `j0_after = ceil((lat_1d[0] − ymin)/sose_res)
> 0`, and the `j0_after` synthesized values prepended to the latitude axis
are exactly `latExtendVals`: evenly spaced at `sose_res`, strictly
increasing, and ending one spacing below the first (fully retained) native
value (grid.py lines 472-475 and 515-518). -/
theorem soseTrimExtend_southward_extension (i_split : ℕ)
    (lon lonc lat latc z modelZ : List ℚ) (xmin xmax ymin ymax res : ℚ)
    (g : SoseAxes) (hres : 0 < res) (hymin : ymin < lat.getD 0 0)
    (h : soseTrimExtend i_split lon lonc lat latc z modelZ
      xmin xmax ymin ymax res = Except.ok g) :
    g.j0_after = j0AfterExtend (lat.getD 0 0) ymin res ∧
    0 < g.j0_after ∧
    g.lat_1d.take g.j0_after = latExtendVals g.j0_after res (lat.getD 0 0) ∧
    (∀ m, m < g.j0_after →
      (latExtendVals g.j0_after res (lat.getD 0 0)).getD m 0 =
        lat.getD 0 0 - ((g.j0_after : ℚ) - m) * res) ∧
    List.Chain' (fun a b => a < b)
      (latExtendVals g.j0_after res (lat.getD 0 0)) ∧
    (latExtendVals g.j0_after res (lat.getD 0 0)).getD (g.j0_after - 1) 0 =
      lat.getD 0 0 - res := by
  unfold soseTrimExtend at h
  obtain ⟨i0, hi0, h⟩ := except_bind_ok _ _ _ h
  obtain ⟨i1, hi1, h⟩ := except_bind_ok _ _ _ h
  obtain ⟨jp, hjp, h⟩ := except_bind_ok _ _ _ h
  obtain ⟨j1, hj1, h⟩ := except_bind_ok _ _ _ h
  rw [soseSouth_extend lat ymin res hymin] at hjp
  injection hjp with hjp2
  obtain ⟨hg, -, -, -, -, -, -⟩ := soseCheckBounds_ok _ _ _ _ _ _ _ _ h
  subst hg
  rw [← hjp2]
  dsimp only
  have hn0 : 0 < j0AfterExtend (lat.getD 0 0) ymin res := by
    unfold j0AfterExtend
    have hceil : 0 < ⌈(lat.getD 0 0 - ymin) / res⌉ :=
      Int.ceil_pos.mpr (div_pos (by linarith) hres)
    omega
  set n0 := j0AfterExtend (lat.getD 0 0) ymin res with hn0def
  refine ⟨rfl, hn0, ?_, ?_, latExtendVals_chain n0 res _ hres, ?_⟩
  · exact take_append_length _ _ _ (latExtendVals_length n0 res (lat.getD 0 0))
  · intro m hm
    exact latExtendVals_getD n0 res _ m hm
  · rw [latExtendVals_getD n0 res _ (n0 - 1) (by omega)]
    have hc : ((n0 - 1 : ℕ) : ℚ) = (n0 : ℚ) - 1 := by
      rw [Nat.cast_sub (by omega)]
      push_cast
      ring
    rw [hc]
    ring

lemma soseTrimExtend_gW7 :
    soseTrimExtend 0 [1/2, 3/2, 5/2, 7/2] [0, 1, 2, 3] [0, 1, 2, 3]
      [-1/2, 1/2, 3/2, 5/2] [-1, -2, -3] [-1, -2, -3] (1/2) 3 (-5) (5/2) 1 =
      Except.ok gW7 := by
  have ht : Int.toNat 5 = 5 := rfl
  norm_num [soseTrimExtend, soseWest, soseEast, soseSouth, soseNorth,
    soseCheckBounds, Except.bind, slice, latExtendVals, j0AfterExtend,
    List.getD, List.getLastD, List.range_succ, ht, gW7]

/-- Witness for C7: on the concrete run extended five rows south at
resolution 1, the extension count is positive and the prepended rows are
the synthesized `latExtendVals`. -/
theorem soseTrimExtend_southward_extension_witness :
    0 < gW7.j0_after ∧
    gW7.lat_1d.take gW7.j0_after =
      latExtendVals gW7.j0_after 1 ([(0 : ℚ), 1, 2, 3].getD 0 0) :=
  ⟨(soseTrimExtend_southward_extension 0 [1/2, 3/2, 5/2, 7/2] [0, 1, 2, 3]
      [0, 1, 2, 3] [-1/2, 1/2, 3/2, 5/2] [-1, -2, -3] [-1, -2, -3]
      (1/2) 3 (-5) (5/2) 1 gW7 (by norm_num) (by norm_num)
      soseTrimExtend_gW7).2.1,
   (soseTrimExtend_southward_extension 0 [1/2, 3/2, 5/2, 7/2] [0, 1, 2, 3]
      [0, 1, 2, 3] [-1/2, 1/2, 3/2, 5/2] [-1, -2, -3] [-1, -2, -3]
      (1/2) 3 (-5) (5/2) 1 gW7 (by norm_num) (by norm_num)
      soseTrimExtend_gW7).2.2.1⟩

lemma getD_map_pres {α β : Type} (f : α → β) (d : α) (e : β) (hf : f d = e)
    (L : List α) (j : ℕ) : (L.map f).getD j e = f (L.getD j d) := by
  by_cases hj : j < L.length
  · rw [List.getD_eq_getElem _ _ (by simpa using hj), List.getElem_map,
      List.getD_eq_getElem _ _ hj]
  · rw [List.getD_eq_default _ _ (by simpa using not_lt.mp hj),
      List.getD_eq_default _ _ (not_lt.mp hj), hf]

lemma readFieldCoreXY_spec (s : SoseAxes) (raw : List (List ℚ)) (fill : ℚ)
    (hjn : s.j1_after ≤ s.ny) (hin : s.i1_after ≤ s.nx) :
    ReadXYSpec s raw fill (readFieldCoreXY s raw fill) := by
  unfold ReadXYSpec readFieldCoreXY
  refine ⟨by simp [mkArr2], ?_, ?_, ?_⟩
  · intro row hrow
    simp only [mkArr2, List.mem_map, List.mem_range] at hrow
    obtain ⟨j, hj, rfl⟩ := hrow
    simp
  · intro j i hw
    obtain ⟨h1, h2, h3, h4⟩ := hw
    rw [mkArr2_getD _ _ _ j i (by omega) (by omega)]
    rw [if_pos ⟨h1, h2, h3, h4⟩]
    rw [getD_map_pres (fun row => split_longitude row s.i_split) [] []
      (by simp [split_longitude]) raw _]
  · intro j i hj hi hnw
    rw [mkArr2_getD _ _ _ j i hj hi]
    exact if_neg (fun hc => hnw ⟨hc.1, hc.2.1, hc.2.2.1, hc.2.2.2⟩)

lemma readFieldCoreXYZ_spec (s : SoseAxes) (raw : List (List (List ℚ)))
    (fill : ℚ) (hjn : s.j1_after ≤ s.ny) (hin : s.i1_after ≤ s.nx)
    (hkn : s.k1_after ≤ s.nz) :
    ReadXYZSpec s raw fill (readFieldCoreXYZ s raw fill) := by
  unfold ReadXYZSpec readFieldCoreXYZ
  refine ⟨by simp, ?_, ?_, ?_⟩
  · intro pl hpl
    simp only [List.mem_map, List.mem_range] at hpl
    obtain ⟨k, hk, rfl⟩ := hpl
    refine ⟨by simp [mkArr2], ?_⟩
    intro row hrow
    simp only [mkArr2, List.mem_map, List.mem_range] at hrow
    obtain ⟨j, hj, rfl⟩ := hrow
    simp
  · intro k j i hw
    obtain ⟨hk1, hk2, h1, h2, h3, h4⟩ := hw
    have hkd : ((List.range s.nz).map (fun k => mkArr2 s.ny s.nx
        (fun j i => if s.k0_after ≤ k ∧ k < s.k1_after ∧ s.j0_after ≤ j ∧
          j < s.j1_after ∧ s.i0_after ≤ i ∧ i < s.i1_after then
          (((raw.map (fun layer => layer.map (fun row =>
            split_longitude row s.i_split))).getD
            (k - s.k0_after + s.k0_before) []).getD
            (j - s.j0_after + s.j0_before) []).getD
            (i - s.i0_after + s.i0_before) 0
        else fill))).getD k [] = mkArr2 s.ny s.nx
        (fun j i => if s.k0_after ≤ k ∧ k < s.k1_after ∧ s.j0_after ≤ j ∧
          j < s.j1_after ∧ s.i0_after ≤ i ∧ i < s.i1_after then
          (((raw.map (fun layer => layer.map (fun row =>
            split_longitude row s.i_split))).getD
            (k - s.k0_after + s.k0_before) []).getD
            (j - s.j0_after + s.j0_before) []).getD
            (i - s.i0_after + s.i0_before) 0
        else fill) := by
      rw [List.getD_eq_getElem _ _ (by simpa using by omega : k <
        ((List.range s.nz).map _).length)]
      rw [List.getElem_map, List.getElem_range]
    rw [hkd, mkArr2_getD _ _ _ j i (by omega) (by omega)]
    rw [if_pos ⟨hk1, hk2, h1, h2, h3, h4⟩]
    rw [getD_map_pres (fun layer => layer.map (fun row =>
      split_longitude row s.i_split)) [] [] (by simp) raw _]
    rw [getD_map_pres (fun row => split_longitude row s.i_split) [] []
      (by simp [split_longitude]) _ _]
  · intro k j i hk hj hi hnw
    have hkd : k < ((List.range s.nz).map (fun k => mkArr2 s.ny s.nx
        (fun j i => if s.k0_after ≤ k ∧ k < s.k1_after ∧ s.j0_after ≤ j ∧
          j < s.j1_after ∧ s.i0_after ≤ i ∧ i < s.i1_after then
          (((raw.map (fun layer => layer.map (fun row =>
            split_longitude row s.i_split))).getD
            (k - s.k0_after + s.k0_before) []).getD
            (j - s.j0_after + s.j0_before) []).getD
            (i - s.i0_after + s.i0_before) 0
        else fill))).length := by simpa using hk
    rw [List.getD_eq_getElem _ _ hkd, List.getElem_map, List.getElem_range]
    rw [mkArr2_getD _ _ _ j i hj hi]
    exact if_neg (fun hc => hnw ⟨hc.1, hc.2.1, hc.2.2.1, hc.2.2.2.1,
      hc.2.2.2.2.1, hc.2.2.2.2.2⟩)

/-- C8: with `trim_extend` enabled, every `read_field` call with a
supported dimensions string (`xy`, `xyt`, `xyz`, `xyzt`) and fill value
`fill` returns an array of the aligned shape (`(time,) (nz,) ny, nx`);
inside the after-index window it equals the longitude-rotated source at the
corresponding before-indices, and everywhere outside that window it equals
`fill` exactly (grid.py lines 574-601). -/
theorem read_field_window_spec (s : SoseAxes) (fill : ℚ)
    (hte : s.trim_extend = true) (hjn : s.j1_after ≤ s.ny)
    (hin : s.i1_after ≤ s.nx) (hkn : s.k1_after ≤ s.nz) :
    (∀ raw2, ReadXYSpec s raw2 fill (read_field_xy s raw2 fill)) ∧
    (∀ raw3, (read_field_xyt s raw3 fill).length = raw3.length ∧
      ∀ t, t < raw3.length →
        ReadXYSpec s (raw3.getD t []) fill
          ((read_field_xyt s raw3 fill).getD t [])) ∧
    (∀ raw3, ReadXYZSpec s raw3 fill (read_field_xyz s raw3 fill)) ∧
    (∀ raw4, (read_field_xyzt s raw4 fill).length = raw4.length ∧
      ∀ t, t < raw4.length →
        ReadXYZSpec s (raw4.getD t []) fill
          ((read_field_xyzt s raw4 fill).getD t [])) := by
  refine ⟨?_, ?_, ?_, ?_⟩
  · intro raw2
    rw [read_field_xy, if_pos hte]
    exact readFieldCoreXY_spec s raw2 fill hjn hin
  · intro raw3
    rw [read_field_xyt, if_pos hte]
    refine ⟨by simp, ?_⟩
    intro t ht
    rw [List.getD_eq_getElem
        (raw3.map (fun sl => readFieldCoreXY s sl fill)) []
        (by simpa using ht),
      List.getElem_map, List.getD_eq_getElem raw3 [] ht]
    exact readFieldCoreXY_spec s _ fill hjn hin
  · intro raw3
    rw [read_field_xyz, if_pos hte]
    exact readFieldCoreXYZ_spec s raw3 fill hjn hin hkn
  · intro raw4
    rw [read_field_xyzt, if_pos hte]
    refine ⟨by simp, ?_⟩
    intro t ht
    rw [List.getD_eq_getElem
        (raw4.map (fun sl => readFieldCoreXYZ s sl fill)) []
        (by simpa using ht),
      List.getElem_map, List.getD_eq_getElem raw4 [] ht]
    exact readFieldCoreXYZ_spec s _ fill hjn hin hkn

/-- Witness for C8: on the concrete axes `soseAxes0` (whose southward
extension is one row), reading the 2×2 field `[[1,2],[3,4]]` with fill 7
gives fill at the extended row 0 and the source value at the in-window
point (1,0). -/
theorem read_field_window_spec_witness :
    ((read_field_xy soseAxes0 [[1, 2], [3, 4]] 7).getD 0 []).getD 0 0 =
      7 ∧
    ((read_field_xy soseAxes0 [[1, 2], [3, 4]] 7).getD 1 []).getD 0 0 =
      (split_longitude ([[(1 : ℚ), 2], [3, 4]].getD 0 []) 0).getD 0 0 :=
  ⟨((read_field_window_spec soseAxes0 7 (by decide) (by decide) (by decide)
      (by decide)).1 [[1, 2], [3, 4]]).2.2.2 0 0 (by decide) (by decide)
      (by decide),
   ((read_field_window_spec soseAxes0 7 (by decide) (by decide) (by decide)
      (by decide)).1 [[1, 2], [3, 4]]).2.2.1 1 0 (by decide)⟩

end MitgcmGrid
